import Mathlib

/-!
# CollabCanvas client-side synchronization core — shallow embedding

This file embeds, in Lean, the state-handling parts of
`src/collabcanvas/src/components/Canvas.tsx` (the repository keeps several
iterations of that component in one file; we embed each cited handler):

* the record → rectangle mapping (`mapRecordToRectangle`, lines 38–49),
* the realtime change-feed merge handlers (`handleInsertEvent` lines
  224–254, `handleUpdateEvent` lines 256–293, the combined
  `postgres_changes` handler of the second iteration, lines 1238–1262),
* position clamping and drag updates (`clampRectanglePosition` lines
  126–132, `updateRectanglePosition` lines 134–153, `onDragEnd` lines
  642–679 and 1992–2001),
* optimistic creation and rollback (`createRectangleAt` lines 361–420),
* the stale remote-cursor sweeps (effect at lines 1426–1446 and the
  `cleaner` interval at lines 2199–2208).

Numeric canvas coordinates are modelled as `Int`; timestamps are the
millisecond values produced by `Date.parse`, modelled as `Nat` (a nullable
timestamp is `Option Nat`, with `none` for `null`).  The React state
`rectangles : CanvasRectangle[]` is a `List CanvasRectangle`; each handler
is the pure state-transition function that the corresponding
`setRectangles` callback performs.
-/

/-- Workspace bound, `const WORKSPACE_SIZE = 3000` (Canvas.tsx line 20). -/
def WORKSPACE_SIZE : Int := 3000

/-- `const DEFAULT_RECT_SIZE = 100` (Canvas.tsx line 22). -/
def DEFAULT_RECT_SIZE : Int := 100

/-- `const MIN_RECT_SIZE = 20` (Canvas.tsx line 23). -/
def MIN_RECT_SIZE : Int := 20

/-- `const RECT_COLORS = [...]`, the fixed 8-entry palette (lines 24–33). -/
def RECT_COLORS : List String :=
  ["#ef4444", "#f97316", "#facc15", "#22c55e",
   "#14b8a6", "#3b82f6", "#a855f7", "#ec4899"]

/-- A 2D point `{ x, y }`. -/
structure Position where
  x : Int
  y : Int
deriving Repr, DecidableEq

/-- The wire record shape (`RectangleRecord` from `lib/database.ts`):
row of the `canvas_objects` table as delivered by the change feed.
`created_at` / `updated_at` are already-parsed millisecond timestamps
(`none` models SQL `null`). -/
structure RectangleRecord where
  id : String
  x : Int
  y : Int
  width : Int
  height : Int
  color : String
  canvas_id : String
  created_by : Option String
  created_at : Option Nat
  updated_at : Option Nat
deriving Repr, DecidableEq

/-- The Object Store element type (`CanvasRectangle` from `Rectangle.tsx`). -/
structure CanvasRectangle where
  id : String
  x : Int
  y : Int
  width : Int
  height : Int
  color : String
  canvasId : String
  updatedAt : Option Nat
deriving Repr, DecidableEq

/-- `mapRecordToRectangle` (Canvas.tsx lines 38–49):
`updatedAt: record.updated_at ?? record.created_at ?? null`. -/
def mapRecordToRectangle (record : RectangleRecord) : CanvasRectangle :=
  { id := record.id
    x := record.x
    y := record.y
    width := record.width
    height := record.height
    color := record.color
    canvasId := record.canvas_id
    updatedAt := record.updated_at.orElse fun _ => record.created_at }

/-- `parseTimestamp` (Canvas.tsx lines 51–52):
`value ? Date.parse(value) || 0 : 0`; a `null` (or unparsable, modelled
as `none`) timestamp compares as `0`. -/
def parseTimestamp (value : Option Nat) : Nat :=
  match value with
  | some t => t
  | none => 0

/-- `current.find((item) => item.id === id)` / `findIndex`, returning the
first matching element: the element the handlers read and replace. -/
def findFirstById (id : String) : List CanvasRectangle → Option CanvasRectangle
  | [] => none
  | item :: rest => if item.id = id then some item else findFirstById id rest

/-- `next[index] = incoming` after `findIndex`: replace the first element
whose id matches `incoming.id`, keep everything else. -/
def replaceFirstById (incoming : CanvasRectangle) :
    List CanvasRectangle → List CanvasRectangle
  | [] => []
  | item :: rest =>
    if item.id = incoming.id then incoming :: rest
    else item :: replaceFirstById incoming rest

/-- `handleInsertEvent` (Canvas.tsx lines 224–254): the state transition its
`setRectangles` callback applies.  Events for another workspace are
discarded; a fresh id is appended; otherwise last-writer-wins with the
existing entry kept on ties (`existingTs >= incomingTs`), and replacement
performed by `current.map` over every element with the record's id. -/
def handleInsertEvent (canvasId : String) (record : RectangleRecord)
    (current : List CanvasRectangle) : List CanvasRectangle :=
  if record.canvas_id ≠ canvasId then current
  else
    let incoming := mapRecordToRectangle record
    let incomingTs := parseTimestamp incoming.updatedAt
    match findFirstById record.id current with
    | none => current ++ [incoming]
    | some existing =>
      if parseTimestamp existing.updatedAt ≥ incomingTs then current
      else current.map fun item => if item.id = record.id then incoming else item

/-- `handleUpdateEvent` (Canvas.tsx lines 256–293): same workspace guard and
last-writer-wins comparison, but replacement via `findIndex` and
`next[index] = incoming` (first match only). -/
def handleUpdateEvent (canvasId : String) (record : RectangleRecord)
    (current : List CanvasRectangle) : List CanvasRectangle :=
  if record.canvas_id ≠ canvasId then current
  else
    let incoming := mapRecordToRectangle record
    let incomingTs := parseTimestamp incoming.updatedAt
    match findFirstById record.id current with
    | none => current ++ [incoming]
    | some existing =>
      if parseTimestamp existing.updatedAt ≥ incomingTs then current
      else replaceFirstById incoming current

/-- `next.sort((a, b) => parseTimestamp(a.updatedAt) - parseTimestamp(b.updatedAt))`
from the combined realtime handler (lines 1241–1243 and 1259–1261):
a stable ascending sort by parsed timestamp (ECMAScript `Array.prototype.sort`
is stable, so any stable sort with the same key models it). -/
def sortByUpdatedAt (l : List CanvasRectangle) : List CanvasRectangle :=
  List.insertionSort
    (fun a b => parseTimestamp a.updatedAt ≤ parseTimestamp b.updatedAt) l

/-- The combined `postgres_changes` handler of the second Canvas iteration
(lines 1238–1262), INSERT/UPDATE branch: append or replace-first, keeping
the current list only when `incomingTs < existingTs` (ties replace), then
re-sort by timestamp. -/
def applyRealtimeChange (record : RectangleRecord)
    (current : List CanvasRectangle) : List CanvasRectangle :=
  let incoming := mapRecordToRectangle record
  match findFirstById incoming.id current with
  | none => sortByUpdatedAt (current ++ [incoming])
  | some existing =>
    if parseTimestamp incoming.updatedAt < parseTimestamp existing.updatedAt then
      current
    else sortByUpdatedAt (replaceFirstById incoming current)

/-- `clampRectanglePosition` (Canvas.tsx lines 126–132):
`Math.max(0, Math.min(WORKSPACE_SIZE - rectangle.width, position.x))`
on each axis. -/
def clampRectanglePosition (rectangle : CanvasRectangle) (position : Position) :
    Position :=
  { x := max 0 (min (WORKSPACE_SIZE - rectangle.width) position.x)
    y := max 0 (min (WORKSPACE_SIZE - rectangle.height) position.y) }

/-- `updateRectanglePosition` (Canvas.tsx lines 134–153), the list mapping
its `setRectangles` callback applies: clamp and re-stamp every element
with the given id, leave the rest alone.  `now` is the millisecond value
of the fresh `new Date().toISOString()`. -/
def updateRectanglePosition (id : String) (position : Position) (now : Nat)
    (current : List CanvasRectangle) : List CanvasRectangle :=
  current.map fun item =>
    if item.id = id then
      let clamped := clampRectanglePosition item position
      { item with x := clamped.x, y := clamped.y, updatedAt := some now }
    else item

/-- The value `updateRectanglePosition` returns (`let clamped; ...;
return clamped`): the clamp computed for the last matching element, or
`undefined` (`none`) when no element matches. -/
def updateRectanglePositionResult (id : String) (position : Position)
    (current : List CanvasRectangle) : Option Position :=
  current.foldl
    (fun acc item =>
      if item.id = id then some (clampRectanglePosition item position) else acc)
    none

/-- The payload handed to `createRectangleRecord` / `updateRectangleRecord`
(`lib/database.ts`): the durable write the pipeline issues.  When the
pipeline issues no write, the model carries no request. -/
structure CreateRequest where
  x : Int
  y : Int
  width : Int
  height : Int
  color : String
  canvas_id : String
  created_by : Option String
deriving Repr, DecidableEq

/-- The durable position-update payload built in `onDragEnd`
(Canvas.tsx lines 657–662). -/
structure UpdateRequest where
  id : String
  x : Int
  y : Int
  canvas_id : String
deriving Repr, DecidableEq

/-- The synchronous outcome of `createRectangleAt`: the new `rectangles`
state, the new `selectedId` and `colorIndex`, plus the durable-create
request that is issued. -/
structure CreateResult where
  rectangles : List CanvasRectangle
  selectedId : Option String
  colorIndex : Nat
  request : CreateRequest
deriving Repr, DecidableEq

/-- `createRectangleAt` (Canvas.tsx lines 361–420), synchronous part:
clamp the centered default-size rectangle into the workspace, append it
optimistically under the fresh `tempId`, advance the color index, and
issue the durable create carrying `created_by: user?.id ?? null`.
`user` is the (possibly absent) authenticated user id, `now` the
millisecond value of `new Date().toISOString()`, `colorIndex` the current
round-robin color state. -/
def createRectangleAt (canvasId : String) (colorIndex : Nat)
    (user : Option String) (tempId : String) (now : Nat) (position : Position)
    (current : List CanvasRectangle) : CreateResult :=
  let width := max DEFAULT_RECT_SIZE MIN_RECT_SIZE
  let height := max DEFAULT_RECT_SIZE MIN_RECT_SIZE
  let clampedX := min (WORKSPACE_SIZE - width) (max 0 (position.x - width / 2))
  let clampedY := min (WORKSPACE_SIZE - height) (max 0 (position.y - height / 2))
  let color := RECT_COLORS.getD colorIndex ""
  let optimisticRectangle : CanvasRectangle :=
    { id := tempId
      x := clampedX
      y := clampedY
      width := width
      height := height
      color := color
      canvasId := canvasId
      updatedAt := some now }
  { rectangles := current ++ [optimisticRectangle]
    selectedId := some tempId
    colorIndex := (colorIndex + 1) % RECT_COLORS.length
    request :=
      { x := clampedX
        y := clampedY
        width := width
        height := height
        color := color
        canvas_id := canvasId
        created_by := user } }

/-- The `.catch` rollback of `createRectangleAt` (Canvas.tsx lines 411–417):
`current.filter((item) => item.id !== tempId)`. -/
def rollbackCreate (tempId : String) (current : List CanvasRectangle) :
    List CanvasRectangle :=
  current.filter fun item => item.id ≠ tempId

/-- `rectangle.id.startsWith('temp-')`: the temporary-id test of both
drag-end handlers.  Stated on the character lists so that it is
kernel-computable; `String.startsWith s p` holds exactly when `p.data` is
a list-wise initial segment of `s.data`. -/
def startsWithTemp (id : String) : Bool :=
  List.isPrefixOf "temp-".data id.data

/-- `onDragEnd` (Canvas.tsx lines 642–679): apply the clamped optimistic
position locally, and issue a durable update only when a position was
produced, the id is non-empty (truthy) and the id does not start with
`temp-`.  Returns the new store and the update request, if any. -/
def onDragEnd (canvasId : String) (rectangleId : String) (eventPos : Position)
    (now : Nat) (current : List CanvasRectangle) :
    List CanvasRectangle × Option UpdateRequest :=
  let next := updateRectanglePosition rectangleId eventPos now current
  match updateRectanglePositionResult rectangleId eventPos current with
  | none => (next, none)
  | some nextPosition =>
    if rectangleId ≠ "" ∧ ¬ startsWithTemp rectangleId then
      (next, some { id := rectangleId, x := nextPosition.x, y := nextPosition.y,
                    canvas_id := canvasId })
    else (next, none)

/-- `onDragEnd` of the second Canvas iteration (lines 1992–2001), which
persists via `persistRectanglePosition(rectangle.id, clamped)` whenever a
clamped position was produced and the id does not start with `temp-`
(no separate truthiness check on the id). -/
def onDragEndPersist (canvasId : String) (rectangleId : String)
    (eventPos : Position) (now : Nat) (current : List CanvasRectangle) :
    List CanvasRectangle × Option UpdateRequest :=
  let next := updateRectanglePosition rectangleId eventPos now current
  match updateRectanglePositionResult rectangleId eventPos current with
  | none => (next, none)
  | some clamped =>
    if ¬ startsWithTemp rectangleId then
      (next, some { id := rectangleId, x := clamped.x, y := clamped.y,
                    canvas_id := canvasId })
    else (next, none)

/-- A remote cursor entry of the second Canvas iteration (lines 1148–1155);
`updatedAt` is its `lastSeenAt` timestamp in milliseconds. -/
structure RemoteCursor where
  userId : String
  name : String
  color : String
  x : Int
  y : Int
  updatedAt : Nat
deriving Repr, DecidableEq

/-- A remote cursor entry of the third Canvas iteration (line 2054):
`{ x, y, color, label, ts }`. -/
structure CursorBroadcast where
  x : Int
  y : Int
  color : String
  label : String
  ts : Nat
deriving Repr, DecidableEq

/-- The stale-cursor sweep effect (Canvas.tsx lines 1426–1446): one run of
the 2-second interval keeps exactly the entries with
`now - cursor.updatedAt <= 5000`.  The cursor map
`Record<string, RemoteCursor>` is modelled as an association list. -/
def sweepStaleCursors (now : Nat) (current : List (String × RemoteCursor)) :
    List (String × RemoteCursor) :=
  current.filter fun kv => now - kv.2.updatedAt ≤ 5000

/-- The `cleaner` interval of the third Canvas iteration (lines 2199–2208):
one run keeps exactly the entries with `now - v.ts < 5000` (strict). -/
def cleanStaleCursors (now : Nat) (prev : List (String × CursorBroadcast)) :
    List (String × CursorBroadcast) :=
  prev.filter fun kv => now - kv.2.ts < 5000

/-! ## Helper lemmas on the store operations -/

theorem findFirstById_eq_none {id : String} {l : List CanvasRectangle}
    (h : findFirstById id l = none) : ∀ r ∈ l, r.id ≠ id := by
  induction l with
  | nil => intro r hr; cases hr
  | cons item rest ih =>
    intro r hr
    by_cases hid : item.id = id
    · simp [findFirstById, hid] at h
    · simp only [findFirstById, if_neg hid] at h
      rcases List.mem_cons.mp hr with hr | hr
      · subst hr; exact hid
      · exact ih h r hr

theorem findFirstById_append_fresh {id : String} {pre post : List CanvasRectangle}
    {e : CanvasRectangle} (hpre : ∀ r ∈ pre, r.id ≠ id) (he : e.id = id) :
    findFirstById id (pre ++ e :: post) = some e := by
  induction pre with
  | nil => simp [findFirstById, he]
  | cons item rest ih =>
    have hitem : item.id ≠ id := hpre item (by simp)
    simp only [List.cons_append, findFirstById, if_neg hitem]
    exact ih fun r hr => hpre r (by simp [hr])

theorem findFirstById_replaceFirstById {id : String} {l : List CanvasRectangle}
    {e incoming : CanvasRectangle} (hfind : findFirstById id l = some e)
    (hinc : incoming.id = id) :
    findFirstById id (replaceFirstById incoming l) = some incoming := by
  induction l with
  | nil => simp [findFirstById] at hfind
  | cons item rest ih =>
    by_cases hid : item.id = id
    · rw [replaceFirstById, if_pos (by rw [hid, hinc])]
      simp [findFirstById, hinc]
    · rw [replaceFirstById, if_neg (by rw [hinc]; exact hid)]
      rw [findFirstById, if_neg hid]
      rw [findFirstById, if_neg hid] at hfind
      exact ih hfind

theorem replaceFirstById_append_fresh {pre post : List CanvasRectangle}
    {e incoming : CanvasRectangle} (hpre : ∀ r ∈ pre, r.id ≠ incoming.id)
    (he : e.id = incoming.id) :
    replaceFirstById incoming (pre ++ e :: post) = pre ++ incoming :: post := by
  induction pre with
  | nil => simp [replaceFirstById, he]
  | cons item rest ih =>
    have hitem : item.id ≠ incoming.id := hpre item (by simp)
    simp only [List.cons_append, replaceFirstById, if_neg hitem, List.append_eq]
    rw [ih fun r hr => hpre r (by simp [hr])]

theorem map_replace_append_fresh {id : String} {pre : List CanvasRectangle}
    {e incoming : CanvasRectangle} (hpre : ∀ r ∈ pre, r.id ≠ id)
    (he : e.id = id) :
    ((pre ++ [e]).map fun item => if item.id = id then incoming else item) =
      pre ++ [incoming] := by
  induction pre with
  | nil => simp [he]
  | cons item rest ih =>
    have hitem : item.id ≠ id := hpre item (by simp)
    simp only [List.cons_append, List.map_cons, if_neg hitem]
    rw [ih fun r hr => hpre r (by simp [hr])]

theorem parseTimestamp_mapRecordToRectangle {record : RectangleRecord} {t : Nat}
    (h : record.updated_at = some t) :
    (mapRecordToRectangle record).updatedAt = some t := by
  simp [mapRecordToRectangle, h, Option.orElse]

theorem findFirstById_eq_none_of_fresh {id : String} {l : List CanvasRectangle}
    (h : ∀ r ∈ l, r.id ≠ id) : findFirstById id l = none := by
  induction l with
  | nil => rfl
  | cons item rest ih =>
    rw [findFirstById, if_neg (h item (by simp))]
    exact ih fun r hr => h r (by simp [hr])

/-- Dispatch on the realtime notification kind: the backend signals INSERT
and UPDATE separately, routed to `handleInsertEvent` / `handleUpdateEvent`
(Canvas.tsx lines 295–318). -/
def applyEvent (isInsert : Bool) (canvasId : String) (record : RectangleRecord)
    (current : List CanvasRectangle) : List CanvasRectangle :=
  if isInsert then handleInsertEvent canvasId record current
  else handleUpdateEvent canvasId record current

theorem applyEvent_fresh {k : Bool} {cid : String} {rec : RectangleRecord}
    {cur : List CanvasRectangle} (hc : rec.canvas_id = cid)
    (hfresh : ∀ r ∈ cur, r.id ≠ rec.id) :
    applyEvent k cid rec cur = cur ++ [mapRecordToRectangle rec] := by
  have hfind : findFirstById rec.id cur = none :=
    findFirstById_eq_none_of_fresh hfresh
  cases k <;>
    simp [applyEvent, handleInsertEvent, handleUpdateEvent, hc, hfind]

theorem applyEvent_stale {k : Bool} {cid : String} {rec : RectangleRecord}
    {pre : List CanvasRectangle} {e : CanvasRectangle} (hc : rec.canvas_id = cid)
    (hpre : ∀ r ∈ pre, r.id ≠ rec.id) (he : e.id = rec.id)
    (hts : parseTimestamp (mapRecordToRectangle rec).updatedAt ≤
      parseTimestamp e.updatedAt) :
    applyEvent k cid rec (pre ++ [e]) = pre ++ [e] := by
  have hfind : findFirstById rec.id (pre ++ e :: []) = some e :=
    findFirstById_append_fresh hpre he
  cases k <;>
    simp [applyEvent, handleInsertEvent, handleUpdateEvent, hc, hfind, hts]

theorem applyEvent_newer {k : Bool} {cid : String} {rec : RectangleRecord}
    {pre : List CanvasRectangle} {e : CanvasRectangle} (hc : rec.canvas_id = cid)
    (hpre : ∀ r ∈ pre, r.id ≠ rec.id) (he : e.id = rec.id)
    (hts : parseTimestamp e.updatedAt <
      parseTimestamp (mapRecordToRectangle rec).updatedAt) :
    applyEvent k cid rec (pre ++ [e]) = pre ++ [mapRecordToRectangle rec] := by
  have hfind : findFirstById rec.id (pre ++ e :: []) = some e :=
    findFirstById_append_fresh hpre he
  have hnot : ¬ parseTimestamp e.updatedAt ≥
      parseTimestamp (mapRecordToRectangle rec).updatedAt := by omega
  have hrepl : replaceFirstById (mapRecordToRectangle rec) (pre ++ [e]) =
      pre ++ [mapRecordToRectangle rec] :=
    replaceFirstById_append_fresh (fun r hr => hpre r hr) he
  have hmap : ((pre ++ [e]).map fun item =>
      if item.id = rec.id then mapRecordToRectangle rec else item) =
      pre ++ [mapRecordToRectangle rec] :=
    map_replace_append_fresh hpre he
  cases k <;>
    simp [applyEvent, handleInsertEvent, handleUpdateEvent, hc, hfind, hnot,
      hrepl, hmap]

/-- `sortByUpdatedAt` only reorders: the result is a permutation. -/
theorem sortByUpdatedAt_perm (l : List CanvasRectangle) :
    List.Perm (sortByUpdatedAt l) l :=
  List.perm_insertionSort _ l

/-- C2: for every object id and every pair of records for that id with
`updatedAt` values `t1 < t2`, applying both records to the Object Store via
the change-event merge (INSERT- or UPDATE-kind, in any combination), in
either arrival order, leaves the store holding the record with `updatedAt`
`t2`. -/
theorem C2_monotonic_merge (cid : String) (r1 r2 : RectangleRecord)
    (t1 t2 : Nat) (k1 k2 : Bool) (cur : List CanvasRectangle)
    (hfresh : ∀ r ∈ cur, r.id ≠ r1.id) (hid : r2.id = r1.id)
    (hc1 : r1.canvas_id = cid) (hc2 : r2.canvas_id = cid)
    (hu1 : r1.updated_at = some t1) (hu2 : r2.updated_at = some t2)
    (ht : t1 < t2) :
    applyEvent k2 cid r2 (applyEvent k1 cid r1 cur) =
      cur ++ [mapRecordToRectangle r2] ∧
    applyEvent k1 cid r1 (applyEvent k2 cid r2 cur) =
      cur ++ [mapRecordToRectangle r2] ∧
    findFirstById r1.id (cur ++ [mapRecordToRectangle r2]) =
      some (mapRecordToRectangle r2) ∧
    (mapRecordToRectangle r2).updatedAt = some t2 := by
  have hp1 : (mapRecordToRectangle r1).updatedAt = some t1 :=
    parseTimestamp_mapRecordToRectangle hu1
  have hp2 : (mapRecordToRectangle r2).updatedAt = some t2 :=
    parseTimestamp_mapRecordToRectangle hu2
  have hfresh2 : ∀ r ∈ cur, r.id ≠ r2.id := by
    intro r hr; rw [hid]; exact hfresh r hr
  have hmapid1 : (mapRecordToRectangle r1).id = r2.id := hid.symm
  have hmapid2 : (mapRecordToRectangle r2).id = r1.id := hid
  have hlt : parseTimestamp (mapRecordToRectangle r1).updatedAt <
      parseTimestamp (mapRecordToRectangle r2).updatedAt := by
    rw [hp1, hp2]; exact ht
  refine ⟨?_, ?_, ?_, hp2⟩
  · rw [applyEvent_fresh hc1 hfresh, applyEvent_newer hc2 hfresh2 hmapid1 hlt]
  · rw [applyEvent_fresh hc2 hfresh2,
      applyEvent_stale hc1 hfresh hmapid2 (le_of_lt hlt)]
  · exact findFirstById_append_fresh hfresh hmapid2

/-- C2 witness: a concrete instance of the monotonic-merge theorem, with a
one-element store, two records for id `"b"` with timestamps 10 < 20,
delivered as an INSERT then an UPDATE. -/
theorem C2_monotonic_merge_witness :
    (∀ r ∈ [(⟨"a", 0, 0, 100, 100, "#ef4444", "c", some 5⟩ : CanvasRectangle)],
      r.id ≠ "b") ∧
    (10 : Nat) < 20 ∧
    applyEvent false "c"
      ⟨"b", 7, 8, 100, 100, "#f97316", "c", none, some 10, some 20⟩
      (applyEvent true "c"
        ⟨"b", 1, 2, 100, 100, "#f97316", "c", none, some 10, some 10⟩
        [⟨"a", 0, 0, 100, 100, "#ef4444", "c", some 5⟩]) =
      [⟨"a", 0, 0, 100, 100, "#ef4444", "c", some 5⟩,
       mapRecordToRectangle
         ⟨"b", 7, 8, 100, 100, "#f97316", "c", none, some 10, some 20⟩] := by
  refine ⟨by decide, by decide, ?_⟩
  exact (C2_monotonic_merge "c"
    ⟨"b", 1, 2, 100, 100, "#f97316", "c", none, some 10, some 10⟩
    ⟨"b", 7, 8, 100, 100, "#f97316", "c", none, some 10, some 20⟩
    10 20 true false
    [⟨"a", 0, 0, 100, 100, "#ef4444", "c", some 5⟩]
    (by decide) rfl rfl rfl rfl rfl (by decide)).1

/-- C4: applying the same change-event record to the Object Store twice
yields exactly the same final store state as applying it once, for every
store state and record (idempotence of the last-writer-wins merge). -/
theorem C4_lww_idempotent (cid : String) (rec : RectangleRecord)
    (cur : List CanvasRectangle) :
    handleUpdateEvent cid rec (handleUpdateEvent cid rec cur) =
      handleUpdateEvent cid rec cur := by
  by_cases hc : rec.canvas_id = cid
  · cases hfind : findFirstById rec.id cur with
    | none =>
      have hfresh := findFirstById_eq_none hfind
      have h1 : handleUpdateEvent cid rec cur =
          cur ++ [mapRecordToRectangle rec] := by
        simp [handleUpdateEvent, hc, hfind]
      rw [h1]
      have hfind2 : findFirstById rec.id
          (cur ++ mapRecordToRectangle rec :: []) =
          some (mapRecordToRectangle rec) :=
        findFirstById_append_fresh hfresh rfl
      simp [handleUpdateEvent, hc, hfind2]
    | some existing =>
      by_cases hts : parseTimestamp existing.updatedAt ≥
          parseTimestamp (mapRecordToRectangle rec).updatedAt
      · have h1 : handleUpdateEvent cid rec cur = cur := by
          simp [handleUpdateEvent, hc, hfind, hts]
        rw [h1, h1]
      · have h1 : handleUpdateEvent cid rec cur =
            replaceFirstById (mapRecordToRectangle rec) cur := by
          simp [handleUpdateEvent, hc, hfind, hts]
        rw [h1]
        have hfind2 : findFirstById rec.id
            (replaceFirstById (mapRecordToRectangle rec) cur) =
            some (mapRecordToRectangle rec) :=
          findFirstById_replaceFirstById hfind rfl
        simp [handleUpdateEvent, hc, hfind2]
  · simp [handleUpdateEvent, hc]

/-- C1 counterexample: with equal timestamps the incoming record is NOT
applied — `handleUpdateEvent` keeps the existing entry when
`existingTs >= incomingTs`, so an incoming record whose `updatedAt` equals
the stored one (here both parse to 100) is discarded even though its fields
differ (incoming `x = 50`, stored `x = 0`), contradicting the claim that an
equal `updatedAt` replaces the existing entry. -/
theorem C1_counterexample :
    handleUpdateEvent "c"
      ⟨"a", 50, 0, 100, 100, "#ef4444", "c", none, some 90, some 100⟩
      [⟨"a", 0, 0, 100, 100, "#ef4444", "c", some 100⟩] =
      [⟨"a", 0, 0, 100, 100, "#ef4444", "c", some 100⟩] ∧
    parseTimestamp (mapRecordToRectangle
      ⟨"a", 50, 0, 100, 100, "#ef4444", "c", none, some 90, some 100⟩).updatedAt =
      parseTimestamp (some 100) ∧
    mapRecordToRectangle
      ⟨"a", 50, 0, 100, 100, "#ef4444", "c", none, some 90, some 100⟩ ≠
      ⟨"a", 0, 0, 100, 100, "#ef4444", "c", some 100⟩ := by
  refine ⟨by decide, by decide, by decide⟩

/-- The `current.map` replacement of `handleInsertEvent` rewrites the first
entry carrying the record's id and leaves everything before it alone; the
tail keeps its own mapping (it rewrites any further duplicates there). -/
theorem map_replace_append {id : String} {pre post : List CanvasRectangle}
    {e incoming : CanvasRectangle} (hpre : ∀ r ∈ pre, r.id ≠ id)
    (he : e.id = id) :
    ((pre ++ e :: post).map fun item =>
        if item.id = id then incoming else item) =
      pre ++ incoming ::
        (post.map fun item => if item.id = id then incoming else item) := by
  induction pre with
  | nil => simp [he]
  | cons item rest ih =>
    have hitem : item.id ≠ id := hpre item (by simp)
    simp only [List.cons_append, List.map_cons, if_neg hitem, List.append_eq]
    rw [ih fun r hr => hpre r (by simp [hr])]

/-- The `current.map` replacement is the identity on a list that carries no
entry with the record's id. -/
theorem map_replace_fresh {id : String} {l : List CanvasRectangle}
    {incoming : CanvasRectangle} (h : ∀ r ∈ l, r.id ≠ id) :
    (l.map fun item => if item.id = id then incoming else item) = l := by
  induction l with
  | nil => rfl
  | cons item rest ih =>
    rw [List.map_cons, if_neg (h item (by simp)),
      ih fun r hr => h r (by simp [hr])]

/-- C1 (amended): for an upsert of an incoming change-feed record whose id
already has an entry in the Object Store, `handleInsertEvent` and
`handleUpdateEvent` replace that (first) entry if and only if the incoming
`updatedAt` is strictly greater than the existing one — when the two values
are equal the incoming record is discarded and the store is unchanged
(`handleInsertEvent` additionally rewrites any duplicate entries of the
same id further down the store; with unique ids it replaces exactly the
existing entry) — while the combined realtime handler of the second Canvas
iteration (lines 1238–1262) replaces it if and only if the incoming
`updatedAt` is greater than or equal to the existing one (up to its
re-sorting of the store by timestamp). -/
theorem C1_lww_replace_iff_strictly_newer (cid : String)
    (rec : RectangleRecord) (pre post : List CanvasRectangle)
    (e : CanvasRectangle) (hc : rec.canvas_id = cid)
    (hpre : ∀ r ∈ pre, r.id ≠ rec.id) (he : e.id = rec.id) :
    (parseTimestamp (mapRecordToRectangle rec).updatedAt ≤
        parseTimestamp e.updatedAt →
      handleUpdateEvent cid rec (pre ++ e :: post) = pre ++ e :: post ∧
      handleInsertEvent cid rec (pre ++ e :: post) = pre ++ e :: post) ∧
    (parseTimestamp e.updatedAt <
        parseTimestamp (mapRecordToRectangle rec).updatedAt →
      handleUpdateEvent cid rec (pre ++ e :: post) =
        pre ++ mapRecordToRectangle rec :: post) ∧
    (parseTimestamp e.updatedAt <
        parseTimestamp (mapRecordToRectangle rec).updatedAt →
      handleInsertEvent cid rec (pre ++ e :: post) =
        pre ++ mapRecordToRectangle rec ::
          (post.map fun item =>
            if item.id = rec.id then mapRecordToRectangle rec else item)) ∧
    (parseTimestamp e.updatedAt <
        parseTimestamp (mapRecordToRectangle rec).updatedAt →
      (∀ r ∈ post, r.id ≠ rec.id) →
      handleInsertEvent cid rec (pre ++ e :: post) =
        pre ++ mapRecordToRectangle rec :: post) ∧
    (parseTimestamp e.updatedAt ≤
        parseTimestamp (mapRecordToRectangle rec).updatedAt →
      List.Perm (applyRealtimeChange rec (pre ++ e :: post))
        (pre ++ mapRecordToRectangle rec :: post)) ∧
    (parseTimestamp (mapRecordToRectangle rec).updatedAt <
        parseTimestamp e.updatedAt →
      applyRealtimeChange rec (pre ++ e :: post) = pre ++ e :: post) := by
  have hfind : findFirstById rec.id (pre ++ e :: post) = some e :=
    findFirstById_append_fresh hpre he
  refine ⟨fun hts => ?_, fun hts => ?_, fun hts => ?_, fun hts hpost => ?_,
    fun hts => ?_, fun hts => ?_⟩
  · constructor <;>
      simp [handleUpdateEvent, handleInsertEvent, hc, hfind, hts]
  · have hnot : ¬ parseTimestamp e.updatedAt ≥
        parseTimestamp (mapRecordToRectangle rec).updatedAt := by omega
    simp only [handleUpdateEvent, hc, ne_eq, not_true_eq_false, if_false,
      hfind, hnot, ite_false]
    exact replaceFirstById_append_fresh (fun r hr => hpre r hr) he
  · have hnot : ¬ parseTimestamp e.updatedAt ≥
        parseTimestamp (mapRecordToRectangle rec).updatedAt := by omega
    simp only [handleInsertEvent, hc, ne_eq, not_true_eq_false, if_false,
      hfind, hnot, ite_false]
    exact map_replace_append hpre he
  · have hnot : ¬ parseTimestamp e.updatedAt ≥
        parseTimestamp (mapRecordToRectangle rec).updatedAt := by omega
    simp only [handleInsertEvent, hc, ne_eq, not_true_eq_false, if_false,
      hfind, hnot, ite_false]
    rw [map_replace_append hpre he, map_replace_fresh hpost]
  · have hfind2 : findFirstById (mapRecordToRectangle rec).id
        (pre ++ e :: post) = some e := hfind
    have hnot : ¬ parseTimestamp (mapRecordToRectangle rec).updatedAt <
        parseTimestamp e.updatedAt := by omega
    have hrepl : replaceFirstById (mapRecordToRectangle rec)
        (pre ++ e :: post) = pre ++ mapRecordToRectangle rec :: post :=
      replaceFirstById_append_fresh (fun r hr => hpre r hr) he
    simp only [applyRealtimeChange, hfind2, hnot, ite_false, hrepl]
    exact sortByUpdatedAt_perm _
  · have hfind2 : findFirstById (mapRecordToRectangle rec).id
        (pre ++ e :: post) = some e := hfind
    simp [applyRealtimeChange, hfind2, hts]

/-- C1 witness: the amended rule at a concrete input — a single-entry store
with timestamp 100 and an incoming record with timestamp 200, which
replaces the entry in `handleUpdateEvent`. -/
theorem C1_lww_replace_iff_strictly_newer_witness :
    (("c" : String) = "c") ∧
    (∀ r ∈ ([] : List CanvasRectangle), r.id ≠ "a") ∧
    (parseTimestamp (⟨"a", 0, 0, 100, 100, "#ef4444", "c", some 100⟩ :
        CanvasRectangle).updatedAt <
      parseTimestamp (mapRecordToRectangle
        ⟨"a", 50, 0, 100, 100, "#ef4444", "c", none, some 90,
          some 200⟩).updatedAt) ∧
    handleUpdateEvent "c"
      ⟨"a", 50, 0, 100, 100, "#ef4444", "c", none, some 90, some 200⟩
      ([] ++ (⟨"a", 0, 0, 100, 100, "#ef4444", "c", some 100⟩ :
        CanvasRectangle) :: []) =
      [] ++ mapRecordToRectangle
        ⟨"a", 50, 0, 100, 100, "#ef4444", "c", none, some 90, some 200⟩ :: [] := by
  refine ⟨rfl, by decide, by decide, ?_⟩
  exact (C1_lww_replace_iff_strictly_newer "c"
    ⟨"a", 50, 0, 100, 100, "#ef4444", "c", none, some 90, some 200⟩
    [] [] ⟨"a", 0, 0, 100, 100, "#ef4444", "c", some 100⟩
    rfl (by decide) rfl).2.1 (by decide)

/-- C9: every incoming change-feed event whose record's `canvas_id` differs
from the currently active workspace id leaves the Object Store unchanged:
both handlers return without modifying the rectangles state. -/
theorem C9_foreign_workspace_discarded (cid : String) (rec : RectangleRecord)
    (cur : List CanvasRectangle) (h : rec.canvas_id ≠ cid) :
    handleInsertEvent cid rec cur = cur ∧
    handleUpdateEvent cid rec cur = cur := by
  constructor <;> simp [handleInsertEvent, handleUpdateEvent, h]

/-- C9 witness: an event for workspace `"other"` arriving while workspace
`"c"` is active leaves a one-element store untouched. -/
theorem C9_foreign_workspace_discarded_witness :
    ((⟨"b", 1, 2, 100, 100, "#f97316", "other", none, some 10, some 10⟩ :
        RectangleRecord).canvas_id ≠ "c") ∧
    handleInsertEvent "c"
      ⟨"b", 1, 2, 100, 100, "#f97316", "other", none, some 10, some 10⟩
      [⟨"a", 0, 0, 100, 100, "#ef4444", "c", some 5⟩] =
      [⟨"a", 0, 0, 100, 100, "#ef4444", "c", some 5⟩] ∧
    handleUpdateEvent "c"
      ⟨"b", 1, 2, 100, 100, "#f97316", "other", none, some 10, some 10⟩
      [⟨"a", 0, 0, 100, 100, "#ef4444", "c", some 5⟩] =
      [⟨"a", 0, 0, 100, 100, "#ef4444", "c", some 5⟩] := by
  refine ⟨by decide, ?_, ?_⟩
  · exact (C9_foreign_workspace_discarded "c"
      ⟨"b", 1, 2, 100, 100, "#f97316", "other", none, some 10, some 10⟩
      [⟨"a", 0, 0, 100, 100, "#ef4444", "c", some 5⟩] (by decide)).1
  · exact (C9_foreign_workspace_discarded "c"
      ⟨"b", 1, 2, 100, 100, "#f97316", "other", none, some 10, some 10⟩
      [⟨"a", 0, 0, 100, 100, "#ef4444", "c", some 5⟩] (by decide)).2

/-- The positional invariant of the spec for a proposed position relative
to a rectangle's size: `0 ≤ x ≤ WORKSPACE_SIZE - width` and
`0 ≤ y ≤ WORKSPACE_SIZE - height`. -/
def positionWithinWorkspace (rectangle : CanvasRectangle) (p : Position) :
    Prop :=
  0 ≤ p.x ∧ p.x ≤ WORKSPACE_SIZE - rectangle.width ∧
  0 ≤ p.y ∧ p.y ≤ WORKSPACE_SIZE - rectangle.height

instance (rectangle : CanvasRectangle) (p : Position) :
    Decidable (positionWithinWorkspace rectangle p) := by
  unfold positionWithinWorkspace; infer_instance

/-- The positional invariant for a stored rectangle itself. -/
def rectWithinWorkspace (rectangle : CanvasRectangle) : Prop :=
  positionWithinWorkspace rectangle ⟨rectangle.x, rectangle.y⟩

instance (rectangle : CanvasRectangle) :
    Decidable (rectWithinWorkspace rectangle) := by
  unfold rectWithinWorkspace; infer_instance

theorem clampRectanglePosition_within (rectangle : CanvasRectangle)
    (position : Position) (hw : rectangle.width ≤ WORKSPACE_SIZE)
    (hh : rectangle.height ≤ WORKSPACE_SIZE) :
    positionWithinWorkspace rectangle
      (clampRectanglePosition rectangle position) := by
  unfold positionWithinWorkspace clampRectanglePosition WORKSPACE_SIZE at *
  dsimp only
  omega

/-- C3: for every rectangle (of workspace-admissible size) and every
proposed position — including negative or out-of-range coordinates — the
clamping function returns a position with `0 ≤ x ≤ WORKSPACE_SIZE - width`
and `0 ≤ y ≤ WORKSPACE_SIZE - height`, and consequently after any drag step
(`updateRectanglePosition`) every stored rectangle with the dragged id
satisfies the positional invariant. -/
theorem C3_clamp_invariant (rectangle : CanvasRectangle) (position : Position)
    (id : String) (pos : Position) (now : Nat)
    (current : List CanvasRectangle)
    (hw : rectangle.width ≤ WORKSPACE_SIZE)
    (hh : rectangle.height ≤ WORKSPACE_SIZE)
    (hcur : ∀ r ∈ current,
      r.width ≤ WORKSPACE_SIZE ∧ r.height ≤ WORKSPACE_SIZE) :
    positionWithinWorkspace rectangle
      (clampRectanglePosition rectangle position) ∧
    ∀ r ∈ updateRectanglePosition id pos now current,
      r.id = id → rectWithinWorkspace r := by
  refine ⟨clampRectanglePosition_within rectangle position hw hh, ?_⟩
  intro r hr hrid
  rcases List.mem_map.mp hr with ⟨item, hitem, hmap⟩
  by_cases hid : item.id = id
  · rw [if_pos hid] at hmap
    rcases hcur item hitem with ⟨hw', hh'⟩
    have hcl := clampRectanglePosition_within item pos hw' hh'
    subst hmap
    exact ⟨hcl.1, hcl.2.1, hcl.2.2.1, hcl.2.2.2⟩
  · rw [if_neg hid] at hmap
    subst hmap
    exact absurd hrid hid

/-- C3 witness: a concrete 100×100 rectangle and the out-of-range proposed
position `(-999, 4000)`, plus a one-element store dragged to that position. -/
theorem C3_clamp_invariant_witness :
    ((⟨"a", 5, 5, 100, 100, "#ef4444", "c", some 0⟩ :
        CanvasRectangle).width ≤ WORKSPACE_SIZE) ∧
    ((⟨"a", 5, 5, 100, 100, "#ef4444", "c", some 0⟩ :
        CanvasRectangle).height ≤ WORKSPACE_SIZE) ∧
    (∀ r ∈ [(⟨"a", 5, 5, 100, 100, "#ef4444", "c", some 0⟩ :
        CanvasRectangle)],
      r.width ≤ WORKSPACE_SIZE ∧ r.height ≤ WORKSPACE_SIZE) ∧
    (positionWithinWorkspace ⟨"a", 5, 5, 100, 100, "#ef4444", "c", some 0⟩
      (clampRectanglePosition ⟨"a", 5, 5, 100, 100, "#ef4444", "c", some 0⟩
        ⟨-999, 4000⟩) ∧
    ∀ r ∈ updateRectanglePosition "a" ⟨-999, 4000⟩ 1
      [⟨"a", 5, 5, 100, 100, "#ef4444", "c", some 0⟩],
      r.id = "a" → rectWithinWorkspace r) := by
  refine ⟨by decide, by decide, by decide, ?_⟩
  exact C3_clamp_invariant ⟨"a", 5, 5, 100, 100, "#ef4444", "c", some 0⟩
    ⟨-999, 4000⟩ "a" ⟨-999, 4000⟩ 1
    [⟨"a", 5, 5, 100, 100, "#ef4444", "c", some 0⟩]
    (by decide) (by decide) (by decide)

/-- C5: for every input point — including out-of-bounds ones —
`createRectangleAt` immediately appends exactly one new object of size
100×100 whose stored position is the input point centered
(shifted by half the default size) and clamped into
`[0, WORKSPACE_SIZE - width]` × `[0, WORKSPACE_SIZE - height]`,
never the raw input. -/
theorem C5_create_at_clamped (canvasId : String) (colorIndex : Nat)
    (user : Option String) (tempId : String) (now : Nat) (position : Position)
    (current : List CanvasRectangle) :
    ∃ r : CanvasRectangle,
      (createRectangleAt canvasId colorIndex user tempId now position
        current).rectangles = current ++ [r] ∧
      (createRectangleAt canvasId colorIndex user tempId now position
        current).rectangles.length = current.length + 1 ∧
      r.width = 100 ∧ r.height = 100 ∧
      r.x = min (WORKSPACE_SIZE - 100) (max 0 (position.x - 50)) ∧
      r.y = min (WORKSPACE_SIZE - 100) (max 0 (position.y - 50)) ∧
      0 ≤ r.x ∧ r.x ≤ WORKSPACE_SIZE - r.width ∧
      0 ≤ r.y ∧ r.y ≤ WORKSPACE_SIZE - r.height := by
  refine ⟨_, rfl, ?_, ?_, ?_, ?_, ?_, ?_, ?_, ?_, ?_⟩
  all_goals
    simp [createRectangleAt, WORKSPACE_SIZE, DEFAULT_RECT_SIZE, MIN_RECT_SIZE]

/-- Removing a fresh id from a store it was just appended to restores the
original store. -/
theorem rollbackCreate_restores {tempId : String}
    {current : List CanvasRectangle}
    (hfresh : ∀ r ∈ current, r.id ≠ tempId) (opt : CanvasRectangle)
    (hopt : opt.id = tempId) :
    rollbackCreate tempId (current ++ [opt]) = current := by
  induction current with
  | nil => simp [rollbackCreate, hopt]
  | cons item rest ih =>
    have hitem : item.id ≠ tempId := hfresh item (by simp)
    have ih2 : rollbackCreate tempId (rest ++ [opt]) = rest :=
      ih fun r hr => hfresh r (by simp [hr])
    have hstep : rollbackCreate tempId ((item :: rest) ++ [opt]) =
        item :: rollbackCreate tempId (rest ++ [opt]) := by
      simp only [rollbackCreate, List.cons_append]
      rw [List.filter_cons_of_pos]
      simpa using hitem
    rw [hstep, ih2]

/-- C6: when the durable-create request of a create intent fails, removing
the temporary optimistic object (the `.catch` rollback) restores exactly
the store that existed before the intent was issued, provided the
temporary id was fresh. -/
theorem C6_create_rollback (canvasId : String) (colorIndex : Nat)
    (user : Option String) (tempId : String) (now : Nat) (position : Position)
    (current : List CanvasRectangle)
    (hfresh : ∀ r ∈ current, r.id ≠ tempId) :
    rollbackCreate tempId
      (createRectangleAt canvasId colorIndex user tempId now position
        current).rectangles = current := by
  exact rollbackCreate_restores hfresh _ rfl

/-- C6 witness: a one-element store, a fresh temporary id `"temp-x"`: the
rollback after the optimistic insert returns the original store. -/
theorem C6_create_rollback_witness :
    (∀ r ∈ [(⟨"a", 0, 0, 100, 100, "#ef4444", "c", some 5⟩ :
        CanvasRectangle)], r.id ≠ "temp-x") ∧
    rollbackCreate "temp-x"
      (createRectangleAt "c" 0 (some "u") "temp-x" 9 ⟨500, 500⟩
        [⟨"a", 0, 0, 100, 100, "#ef4444", "c", some 5⟩]).rectangles =
      [⟨"a", 0, 0, 100, 100, "#ef4444", "c", some 5⟩] := by
  refine ⟨by decide, ?_⟩
  exact C6_create_rollback "c" 0 (some "u") "temp-x" 9 ⟨500, 500⟩
    [⟨"a", 0, 0, 100, 100, "#ef4444", "c", some 5⟩] (by decide)

/-- C7 counterexample: with no authenticated user (`user = none`),
`createRectangleAt` still applies the optimistic update (the store grows
from empty to one element) and still issues the durable-create request,
carrying `created_by = null` — the pipeline does not refuse the intent. -/
theorem C7_counterexample :
    (createRectangleAt "c" 0 none "temp-x" 0 ⟨500, 500⟩
      []).rectangles.length = 1 ∧
    (createRectangleAt "c" 0 none "temp-x" 0 ⟨500, 500⟩
      []).request.created_by = none := by
  decide

/-- C7 (amended): when no authenticated user is present, the create intent
is NOT refused: `createRectangleAt` still appends the optimistic rectangle
under the temporary id and still issues the durable-create request, with
`created_by` set to `null`.  (The application shell refuses to render the
canvas at all without a user, but the mutation pipeline itself performs no
identity check.) -/
theorem C7_create_ignores_missing_identity (canvasId : String)
    (colorIndex : Nat) (tempId : String) (now : Nat) (position : Position)
    (current : List CanvasRectangle) :
    ∃ r : CanvasRectangle,
      (createRectangleAt canvasId colorIndex none tempId now position
        current).rectangles = current ++ [r] ∧
      r.id = tempId ∧
      (createRectangleAt canvasId colorIndex none tempId now position
        current).request.created_by = none :=
  ⟨_, rfl, rfl, rfl⟩

/-- C8 counterexample: the `cleaner` interval of the third Canvas iteration
keeps an entry only while `now - ts < 5000` (strict), so an entry whose age
is exactly 5000 ms — which satisfies the claim's `now - lastSeenAt ≤ 5000 ms`
presence condition — is removed. -/
theorem C8_counterexample :
    cleanStaleCursors 5000 [("u", ⟨0, 0, "#ef4444", "user", 0⟩)] = [] ∧
    (5000 : Nat) - (⟨0, 0, "#ef4444", "user", 0⟩ : CursorBroadcast).ts ≤
      5000 := by
  decide

/-- C8 (amended): after one run of a stale-cursor sweep, an entry with
`now - lastSeenAt > 5000 ms` is absent and a younger entry is present
unchanged; the effect sweep keeps an entry if and only if
`now - updatedAt ≤ 5000` (entries exactly 5000 ms old survive), while the
`cleaner` interval keeps an entry if and only if `now - ts < 5000`
(entries exactly 5000 ms old are removed). -/
theorem C8_cursor_ttl_sweep (now : Nat)
    (cursors : List (String × RemoteCursor))
    (broadcasts : List (String × CursorBroadcast)) (k : String)
    (c : RemoteCursor) (b : CursorBroadcast) :
    ((k, c) ∈ sweepStaleCursors now cursors ↔
      (k, c) ∈ cursors ∧ now - c.updatedAt ≤ 5000) ∧
    ((k, b) ∈ cleanStaleCursors now broadcasts ↔
      (k, b) ∈ broadcasts ∧ now - b.ts < 5000) := by
  constructor <;> simp [sweepStaleCursors, cleanStaleCursors, List.mem_filter]

/-- C10: a drag-end on an object whose id carries the temporary marker
`temp-` (an optimistic create not yet confirmed) updates the local Object
Store to the clamped drag-end position but issues no durable update
request, in both drag-end handlers. -/
theorem C10_temp_drag_not_persisted (canvasId rectangleId : String)
    (eventPos : Position) (now : Nat) (current : List CanvasRectangle)
    (htemp : startsWithTemp rectangleId = true) :
    (onDragEnd canvasId rectangleId eventPos now current).2 = none ∧
    (onDragEnd canvasId rectangleId eventPos now current).1 =
      updateRectanglePosition rectangleId eventPos now current ∧
    (onDragEndPersist canvasId rectangleId eventPos now current).2 = none ∧
    (onDragEndPersist canvasId rectangleId eventPos now current).1 =
      updateRectanglePosition rectangleId eventPos now current ∧
    ∀ r ∈ current, r.id = rectangleId →
      ({ r with
          x := (clampRectanglePosition r eventPos).x
          y := (clampRectanglePosition r eventPos).y
          updatedAt := some now } : CanvasRectangle) ∈
        (onDragEnd canvasId rectangleId eventPos now current).1 := by
  have hcond : ¬ (rectangleId ≠ "" ∧ ¬ startsWithTemp rectangleId) :=
    fun h => h.2 htemp
  have hcond2 : ¬ ¬ startsWithTemp rectangleId = true := fun h => h htemp
  have hsnd : (onDragEnd canvasId rectangleId eventPos now current).2 =
      none := by
    cases hres : updateRectanglePositionResult rectangleId eventPos current with
    | none => simp [onDragEnd, hres]
    | some p => simp [onDragEnd, hres, htemp]
  have hfst : (onDragEnd canvasId rectangleId eventPos now current).1 =
      updateRectanglePosition rectangleId eventPos now current := by
    cases hres : updateRectanglePositionResult rectangleId eventPos current with
    | none => simp [onDragEnd, hres]
    | some p => simp [onDragEnd, hres, htemp]
  have hsnd2 : (onDragEndPersist canvasId rectangleId eventPos now
      current).2 = none := by
    cases hres : updateRectanglePositionResult rectangleId eventPos current with
    | none => simp [onDragEndPersist, hres]
    | some p => simp [onDragEndPersist, hres, htemp]
  have hfst2 : (onDragEndPersist canvasId rectangleId eventPos now
      current).1 = updateRectanglePosition rectangleId eventPos now
      current := by
    cases hres : updateRectanglePositionResult rectangleId eventPos current with
    | none => simp [onDragEndPersist, hres]
    | some p => simp [onDragEndPersist, hres, htemp]
  refine ⟨hsnd, hfst, hsnd2, hfst2, ?_⟩
  intro r hr hrid
  rw [hfst]
  have hmem : (if r.id = rectangleId then
      ({ r with
          x := (clampRectanglePosition r eventPos).x
          y := (clampRectanglePosition r eventPos).y
          updatedAt := some now } : CanvasRectangle) else r) ∈
      updateRectanglePosition rectangleId eventPos now current :=
    List.mem_map_of_mem _ hr
  rwa [if_pos hrid] at hmem

/-- C10 witness: dragging the unconfirmed optimistic rectangle `"temp-q"`
to the out-of-bounds point `(-5, 99)` updates the store but issues no
durable update, in both handlers. -/
theorem C10_temp_drag_not_persisted_witness :
    (startsWithTemp "temp-q" = true) ∧
    ((onDragEnd "c" "temp-q" ⟨-5, 99⟩ 3
      [⟨"temp-q", 0, 0, 100, 100, "#ef4444", "c", some 1⟩]).2 = none ∧
    (onDragEnd "c" "temp-q" ⟨-5, 99⟩ 3
      [⟨"temp-q", 0, 0, 100, 100, "#ef4444", "c", some 1⟩]).1 =
      updateRectanglePosition "temp-q" ⟨-5, 99⟩ 3
        [⟨"temp-q", 0, 0, 100, 100, "#ef4444", "c", some 1⟩] ∧
    (onDragEndPersist "c" "temp-q" ⟨-5, 99⟩ 3
      [⟨"temp-q", 0, 0, 100, 100, "#ef4444", "c", some 1⟩]).2 = none ∧
    (onDragEndPersist "c" "temp-q" ⟨-5, 99⟩ 3
      [⟨"temp-q", 0, 0, 100, 100, "#ef4444", "c", some 1⟩]).1 =
      updateRectanglePosition "temp-q" ⟨-5, 99⟩ 3
        [⟨"temp-q", 0, 0, 100, 100, "#ef4444", "c", some 1⟩] ∧
    ∀ r ∈ [(⟨"temp-q", 0, 0, 100, 100, "#ef4444", "c", some 1⟩ :
        CanvasRectangle)], r.id = "temp-q" →
      ({ r with
          x := (clampRectanglePosition r ⟨-5, 99⟩).x
          y := (clampRectanglePosition r ⟨-5, 99⟩).y
          updatedAt := some 3 } : CanvasRectangle) ∈
        (onDragEnd "c" "temp-q" ⟨-5, 99⟩ 3
          [⟨"temp-q", 0, 0, 100, 100, "#ef4444", "c", some 1⟩]).1) := by
  refine ⟨by decide, ?_⟩
  exact C10_temp_drag_not_persisted "c" "temp-q" ⟨-5, 99⟩ 3
    [⟨"temp-q", 0, 0, 100, 100, "#ef4444", "c", some 1⟩] (by decide)
